/-
Verification of the currency-conversion subsystem of guru-lens
(src/server/services/currencyDetector.py and the conversion-related parts
of src/server/services/yfinanceWrapper.py), as a shallow embedding in Lean 4.

Modelling conventions:
* Python floats are modelled by `Flt`: an exact rational for a finite float
  plus the three special values NaN, +Inf, -Inf. Exchange rates and provider
  prices are modelled by `ℚ` (see the comment on `Fetch`).
* The module-level dictionary `_EXCHANGE_RATE_CACHE` is modelled by an
  association list threaded through every operation as explicit state,
  together with a counter of live-fetch attempts (`calls`) used to state the
  "provider queried at most once" properties. Every write to the dictionary
  in the source happens only after a failed lookup for the same key, so
  consing a fresh entry in front is an exact model of dictionary assignment.
* The external provider call `yf.Ticker(code ++ "USD=X").history(period="1d")`
  is modelled by a stub function `Fetch`.
-/
import Mathlib

set_option autoImplicit false

namespace GuruLens

/-- Python's `str.upper()` on the ASCII strings this subsystem handles
(currency codes), written over the character list so that it evaluates by
kernel reduction. -/
def pyUpper (s : String) : String :=
  String.mk (s.data.map Char.toUpper)

/-- Result of a Python call that can raise: the returned value, or the
message of a raised exception. -/
inductive PyResult (α : Type) where
  | ok (val : α)
  | exn (msg : String)
deriving DecidableEq, Repr

/-- A Python float: a finite value (modelled exactly as a rational), NaN,
positive infinity, or negative infinity. -/
inductive Flt where
  | fin (q : ℚ)
  | nan
  | inf
  | ninf
deriving DecidableEq, Repr

/-- Multiplication of a Python float by a finite positive-or-finite rate,
following IEEE semantics for the special values (`value * rate` in the
source, where the rate is always a finite float: every rate comes from the
fallback table or from a provider price that passed the positivity test). -/
def fltMulQ : Flt → ℚ → Flt
  | .fin a, r => .fin (a * r)
  | .nan, _ => .nan
  | .inf, r => if 0 < r then .inf else if r < 0 then .ninf else .nan
  | .ninf, r => if 0 < r then .ninf else if r < 0 then .inf else .nan

/-- State of the Rate Converter: the module-level exchange-rate dictionary
`_EXCHANGE_RATE_CACHE`, plus an instrumentation counter of how many live
provider fetches have been attempted (used to state the call-count
properties of the spec; the source has no such counter). -/
structure RateState where
  cache : List (String × ℚ)
  calls : Nat
deriving DecidableEq, Repr

/-- The fresh state at process start: empty cache, no fetch attempts. -/
def RateState.init : RateState := ⟨[], 0⟩

/-- `FALLBACK_CURRENCY_RATES` from currencyDetector.py, lines 19-35. -/
def FALLBACK_CURRENCY_RATES : List (String × ℚ) :=
  [ ("CNY", 1 / 7),
    ("HKD", 1 / (7.8 : ℚ)),
    ("JPY", 1 / 150),
    ("EUR", (1.1 : ℚ)),
    ("GBP", (1.27 : ℚ)),
    ("INR", 1 / 83),
    ("SGD", 1 / (1.35 : ℚ)),
    ("AUD", 1 / (1.55 : ℚ)),
    ("CAD", 1 / (1.38 : ℚ)),
    ("CHF", (1.1 : ℚ)),
    ("SEK", 1 / (10.5 : ℚ)),
    ("NZD", 1 / (1.75 : ℚ)),
    ("MXN", 1 / 17),
    ("BRL", 1 / 5),
    ("ZAR", 1 / 18) ]

/-- `FALLBACK_CURRENCY_RATES.get(code, 1.0)` — the fallback rate with the
default of 1.0 for a code absent from the table. -/
def fallbackRate (c : String) : ℚ :=
  (List.lookup c FALLBACK_CURRENCY_RATES).getD 1

/-- A stub for the external provider call
`yf.Ticker(code ++ "USD=X").history(period="1d")`: for a code it yields the
latest closing price, or `none` when the returned history is empty or the
call raised an exception (the source handles these two cases by the same
fallback-and-cache path, so one constructor models both). A NaN closing
price fails the source's `latest_price > 0` test exactly like a non-positive
one and takes the same branch, so it is covered by a non-positive rational;
closing prices of market data are finite, so a rational suffices. -/
def Fetch : Type := String → Option ℚ

/-- `get_live_exchange_rate` from currencyDetector.py, lines 41-101, with the
provider call abstracted to `fetch` and the module-level cache threaded as
state. Returns the exchange rate and the state after the call. -/
def get_live_exchange_rate (fetch : Fetch) (currency_code : String)
    (st : RateState) : ℚ × RateState :=
  let c := pyUpper currency_code
  if c = "USD" then
    (1, st)
  else
    match List.lookup c st.cache with
    | some r => (r, st)
    | none =>
      match fetch c with
      | some latest_price =>
        let exchange_rate :=
          if 0 < latest_price then latest_price else fallbackRate c
        (exchange_rate, ⟨(c, exchange_rate) :: st.cache, st.calls + 1⟩)
      | none =>
        let rate := fallbackRate c
        (rate, ⟨(c, rate) :: st.cache, st.calls + 1⟩)

/-- `get_conversion_rate` from currencyDetector.py, lines 149-174. -/
def get_conversion_rate (fetch : Fetch) (financial_currency : String)
    (st : RateState) : ℚ × RateState :=
  let currency_code := pyUpper financial_currency
  if currency_code = "USD" then
    (1, st)
  else
    get_live_exchange_rate fetch currency_code st

/-- `needs_currency_conversion` from currencyDetector.py, lines 130-146. -/
def needs_currency_conversion (financial_currency : String) : Bool :=
  pyUpper financial_currency != "USD"

/-- `convert_to_usd` from currencyDetector.py, lines 177-197. -/
def convert_to_usd (fetch : Fetch) (value : Flt) (financial_currency : String)
    (st : RateState) : Flt × RateState :=
  if needs_currency_conversion financial_currency then
    let p := get_conversion_rate fetch financial_currency st
    (fltMulQ value p.1, p.2)
  else
    (value, st)

/-- The descriptor returned by `get_currency_info_dict`. -/
structure CurrencyInfo where
  reportingCurrency : String
  conversionApplied : Bool
  conversionRate : ℚ
  exchangeRateSource : String
deriving DecidableEq, Repr

/-- `get_currency_info_dict` from currencyDetector.py, lines 200-235. -/
def get_currency_info_dict (fetch : Fetch) (financial_currency : String)
    (st : RateState) : CurrencyInfo × RateState :=
  let needs_conversion := needs_currency_conversion financial_currency
  let p := get_conversion_rate fetch financial_currency st
  if needs_conversion then
    (⟨financial_currency ++ " (converted to USD)", needs_conversion, p.1,
      "yfinance (live)"⟩, p.2)
  else
    (⟨financial_currency, needs_conversion, p.1, "N/A (USD)"⟩, p.2)

/-- `clear_exchange_rate_cache` from currencyDetector.py, lines 238-246:
empties the cache (the fetch-attempt counter is instrumentation, not state
the source clears). -/
def clear_exchange_rate_cache (st : RateState) : RateState :=
  ⟨[], st.calls⟩

/-- A Python value as it can occur in the `ticker.info` dictionary supplied
to `detect_financial_currency` (the function's annotation is plain `dict`,
so the field's value need not be a string). -/
inductive PyVal where
  | str (s : String)
  | int (n : Int)
  | float (f : Flt)
  | bool (b : Bool)
  | pynone
deriving DecidableEq, Repr

/-- Python truthiness of a `PyVal` (`if financial_currency:` in the source).
NaN and the infinities are truthy; 0, 0.0, "", False and None are falsy. -/
def pyTruthy : PyVal → Bool
  | .str s => s != ""
  | .int n => n != 0
  | .float f => f != .fin 0
  | .bool b => b
  | .pynone => false

/-- `detect_financial_currency` from currencyDetector.py, lines 104-127.
`ticker_info.get('financialCurrency', 'USD')` then `.upper()` on a truthy
value; `.upper()` on a truthy non-string raises `AttributeError`, modelled
by the `PyResult.exn` case. -/
def detect_financial_currency (ticker_info : List (String × PyVal)) :
    PyResult String :=
  let financial_currency :=
    (List.lookup "financialCurrency" ticker_info).getD (.str "USD")
  if pyTruthy financial_currency then
    match financial_currency with
    | .str s => PyResult.ok (pyUpper s)
    | _ => PyResult.exn "AttributeError"
  else
    PyResult.ok "USD"

/-- The failing provider stub: every fetch yields an empty history or raises
(the "live fetch forced to fail" collaborator of the spec's test clauses). -/
def fetchNone : Fetch := fun _ => none

/-- Python `latest_price > 0` on a float (NaN compares false). -/
def fltPos : Flt → Bool
  | .fin q => decide (0 < q)
  | .nan => false
  | .inf => true
  | .ninf => false

/-- Division of a Python float by the constant 1e9 (`value / 1e9` in
yfinanceWrapper.py: the pre-scaling to billions before conversion); the
special values are unchanged by division by a positive finite constant. -/
def fltDivBillion : Flt → Flt
  | .fin q => .fin (q / 1000000000)
  | f => f

/-- The `if math.isnan(x): x = 0` sanitization applied to the five
balance-sheet aggregates in yfinanceWrapper.py, lines 377-386 (only NaN is
zeroed there, not the infinities). -/
def sanitizeNan : Flt → Flt
  | .nan => .fin 0
  | f => f

/- A JSON-serializable Python tree as walked by `clean_nan_values`:
finitely nested dictionaries, lists and scalars. The mutual layers mirror
the recursion of the source (into dict values and list items). -/
mutual
inductive Obj where
  | dict (entries : Entries)
  | arr (items : ObjList)
  | float (f : Flt)
  | str (s : String)
  | int (n : Int)
  | bool (b : Bool)
  | pynone
inductive ObjList where
  | nil
  | cons (head : Obj) (tail : ObjList)
inductive Entries where
  | nil
  | cons (key : String) (value : Obj) (tail : Entries)
end

/- `clean_nan_values` from yfinanceWrapper.py lines 408-418 (textually the
same function appears in yfinanceWrapper_v2.py lines 98-108): dictionaries
and lists are rebuilt with cleaned members; a float that is NaN or an
infinity becomes the integer `0` (Python `return 0` yields an int); every
other value is returned unchanged. -/
mutual
def clean_nan_values : Obj → Obj
  | .dict es => .dict (cleanEntries es)
  | .arr xs => .arr (cleanItems xs)
  | .float (.fin q) => .float (.fin q)
  | .float .nan => .int 0
  | .float .inf => .int 0
  | .float .ninf => .int 0
  | .str s => .str s
  | .int n => .int n
  | .bool b => .bool b
  | .pynone => .pynone
def cleanItems : ObjList → ObjList
  | .nil => .nil
  | .cons x xs => .cons (clean_nan_values x) (cleanItems xs)
def cleanEntries : Entries → Entries
  | .nil => .nil
  | .cons k v es => .cons k (clean_nan_values v) (cleanEntries es)
end

/- A tree contains no floating-point NaN or infinity at any depth. -/
mutual
def objFinite : Obj → Bool
  | .dict es => entriesFinite es
  | .arr xs => itemsFinite xs
  | .float (.fin _) => true
  | .float _ => false
  | .str _ => true
  | .int _ => true
  | .bool _ => true
  | .pynone => true
def itemsFinite : ObjList → Bool
  | .nil => true
  | .cons x xs => objFinite x && itemsFinite xs
def entriesFinite : Entries → Bool
  | .nil => true
  | .cons _ v es => objFinite v && entriesFinite es
end

/- The shape of a tree: the nesting structure of dictionaries (with their
keys, in order) and lists, with every scalar leaf collapsed to a single
placeholder. Two trees of equal shape have the same dictionary keys, list
lengths and nesting at every depth. -/
mutual
def objShape : Obj → Obj
  | .dict es => .dict (entriesShape es)
  | .arr xs => .arr (itemsShape xs)
  | _ => .pynone
def itemsShape : ObjList → ObjList
  | .nil => .nil
  | .cons x xs => .cons (objShape x) (itemsShape xs)
def entriesShape : Entries → Entries
  | .nil => .nil
  | .cons k v es => .cons k (objShape v) (entriesShape es)
end

/-- The spec's example input for the cleaner:
a NaN at key a, the list Inf, -Inf, 3.0 at key b, and a nested NaN at c.d. -/
def exampleTree : Obj :=
  .dict (.cons "a" (.float .nan)
    (.cons "b" (.arr (.cons (.float .inf)
        (.cons (.float .ninf) (.cons (.float (.fin 3)) .nil))))
      (.cons "c" (.dict (.cons "d" (.float .nan) .nil)) .nil)))

/-- The spec's expected output for `exampleTree`. -/
def exampleTreeCleaned : Obj :=
  .dict (.cons "a" (.int 0)
    (.cons "b" (.arr (.cons (.int 0)
        (.cons (.int 0) (.cons (.float (.fin 3)) .nil))))
      (.cons "c" (.dict (.cons "d" (.int 0) .nil)) .nil)))

/-- A row of raw statement figures as extracted in get_stock_data before
conversion: total revenue, net income, operating income and free cash flow
for one period. -/
structure RawRow where
  period : String
  fiscalYear : Int
  revenue : Flt
  netIncome : Flt
  operatingIncome : Flt
  freeCashFlow : Flt
deriving DecidableEq, Repr

/-- A financials entry of the response (yfinanceWrapper.py lines 221-229,
245-253 and 285-294). -/
structure FinRow where
  period : String
  fiscalYear : Int
  revenue : Flt
  netIncome : Flt
  eps : Flt
  operatingIncome : Flt
  freeCashFlow : Flt
deriving DecidableEq, Repr

/-- One converted financials entry: each monetary figure is divided by 1e9
and multiplied by the conversion rate, exactly as in the source's row
constructions; `eps` is emitted without conversion. -/
def convertRow (rate : ℚ) (eps : Flt) (r : RawRow) : FinRow :=
  { period := r.period
    fiscalYear := r.fiscalYear
    revenue := fltMulQ (fltDivBillion r.revenue) rate
    netIncome := fltMulQ (fltDivBillion r.netIncome) rate
    eps := eps
    operatingIncome := fltMulQ (fltDivBillion r.operatingIncome) rate
    freeCashFlow := fltMulQ (fltDivBillion r.freeCashFlow) rate }

/-- The raw balance-sheet aggregates extracted in yfinanceWrapper.py lines
300-374, before NaN zeroing and conversion. -/
structure RawBalance where
  totalAssets : Flt
  totalLiabilities : Flt
  totalEquity : Flt
  bookValuePerShare : Flt
  totalDebt : Flt
  cash : Flt
deriving DecidableEq, Repr

/-- The balanceSheet object of the response (yfinanceWrapper.py lines
388-396). -/
structure BalanceSheet where
  totalAssets : Flt
  totalLiabilities : Flt
  totalEquity : Flt
  bookValuePerShare : Flt
  tangibleBookValuePerShare : Flt
  totalDebt : Flt
  cash : Flt
deriving DecidableEq, Repr

/-- The converted balance sheet: the five aggregates are NaN-zeroed (lines
377-386), divided by 1e9 and multiplied by the conversion rate; the
book-value fields are emitted unconverted (lines 392-393). -/
def convertBalance (rate : ℚ) (b : RawBalance) : BalanceSheet :=
  { totalAssets := fltMulQ (fltDivBillion (sanitizeNan b.totalAssets)) rate
    totalLiabilities := fltMulQ (fltDivBillion (sanitizeNan b.totalLiabilities)) rate
    totalEquity := fltMulQ (fltDivBillion (sanitizeNan b.totalEquity)) rate
    bookValuePerShare := b.bookValuePerShare
    tangibleBookValuePerShare := b.bookValuePerShare
    totalDebt := fltMulQ (fltDivBillion (sanitizeNan b.totalDebt)) rate
    cash := fltMulQ (fltDivBillion (sanitizeNan b.cash)) rate }

/-- The placeholder balanceSheet of the initial result skeleton
(yfinanceWrapper.py lines 155-163), kept when no balance sheet is
available. -/
def defaultBalanceSheet : BalanceSheet :=
  { totalAssets := .fin 0
    totalLiabilities := .fin 0
    totalEquity := .fin 0
    bookValuePerShare := .fin 0
    tangibleBookValuePerShare := .fin 0
    totalDebt := .fin 0
    cash := .fin 0 }

/-- The inputs of get_stock_data that feed its currency-conversion sites:
the detected reporting currency, the TTM sums computed from the last four
quarters (lines 186-211), trailing EPS, the current calendar year, the
annual and quarterly statement rows, and the raw balance sheet (none when
the provider returned no balance sheet). -/
structure StockInput where
  financialCurrency : String
  currentYear : Int
  ttmRevenue : Flt
  ttmNetIncome : Flt
  ttmOperatingIncome : Flt
  ttmFcf : Flt
  trailingEps : Flt
  annualRows : List RawRow
  quarterlyRows : List RawRow
  balance : Option RawBalance

/-- The conversion-relevant part of the get_stock_data response. -/
structure StockData where
  currencyInfo : CurrencyInfo
  financials : List FinRow
  quarterlyFinancials : List FinRow
  balanceSheet : BalanceSheet

/-- The currency-conversion dataflow of `get_stock_data` from
yfinanceWrapper.py lines 76-400: the currency descriptor is built once
(lines 213-217) and its `conversionRate` value, bound to the local
`conversion_rate`, is the one multiplier applied to the TTM entry (lines
220-229), each annual entry (lines 245-253), each quarterly entry (lines
285-294) and the balance-sheet aggregates (lines 388-396). The TTM entry is
emitted only when the TTM revenue or TTM operating income is positive
(line 220); annual and quarterly EPS are emitted as 0 (lines 250, 291). -/
def get_stock_data (fetch : Fetch) (inp : StockInput) (st : RateState) :
    StockData × RateState :=
  let p := get_currency_info_dict fetch inp.financialCurrency st
  let currency_info := p.1
  let conversion_rate := currency_info.conversionRate
  let ttmRows :=
    if fltPos inp.ttmRevenue || fltPos inp.ttmOperatingIncome then
      [convertRow conversion_rate inp.trailingEps
        ⟨"TTM", inp.currentYear, inp.ttmRevenue, inp.ttmNetIncome,
          inp.ttmOperatingIncome, inp.ttmFcf⟩]
    else []
  let financials := ttmRows ++ inp.annualRows.map (convertRow conversion_rate (.fin 0))
  let quarterlyFinancials := inp.quarterlyRows.map (convertRow conversion_rate (.fin 0))
  let balanceSheet :=
    match inp.balance with
    | some b => convertBalance conversion_rate b
    | none => defaultBalanceSheet
  (⟨currency_info, financials, quarterlyFinancials, balanceSheet⟩, p.2)

/-- One public operation of the Rate Converter that can touch the
process-wide cache, used to quantify over arbitrary call sequences. -/
inductive ConverterOp where
  | rateOp (fetch : Fetch) (code : String)
  | convertOp (fetch : Fetch) (value : Flt) (code : String)
  | infoOp (fetch : Fetch) (code : String)
  | clearOp

/-- The state after one Rate Converter operation. -/
def applyOp : ConverterOp → RateState → RateState
  | .rateOp fetch code, st => (get_conversion_rate fetch code st).2
  | .convertOp fetch v code, st => (convert_to_usd fetch v code st).2
  | .infoOp fetch code, st => (get_currency_info_dict fetch code st).2
  | .clearOp, st => clear_exchange_rate_cache st

/-- The state after a sequence of Rate Converter operations. -/
def runOps : List ConverterOp → RateState → RateState
  | [], st => st
  | op :: ops, st => runOps ops (applyOp op st)

/-- The rate a cache miss resolves to: the provider price when it is
positive, the fallback rate otherwise (empty history, exception, or
non-positive price). -/
def resolvedRate (fetch : Fetch) (c : String) : ℚ :=
  match fetch c with
  | some latest_price => if 0 < latest_price then latest_price else fallbackRate c
  | none => fallbackRate c

/-- A concrete statement row used to instantiate the response-consistency
theorem. -/
def sampleRow : RawRow :=
  ⟨"2023-12-31", 2023, .fin 7000000000, .fin 1400000000, .fin 2100000000, .fin 700000000⟩

/-- A concrete raw balance sheet used to instantiate the
response-consistency theorem. -/
def sampleBalance : RawBalance :=
  ⟨.fin 7000000000, .fin 3500000000, .fin 3500000000, .fin 2, .fin 700000000, .fin 1400000000⟩

/-- A concrete get_stock_data input: a CNY reporter with one annual row, one
quarterly row, a balance sheet, and no TTM data. -/
def sampleInput : StockInput :=
  ⟨"CNY", 2025, .fin 0, .fin 0, .fin 0, .fin 0, .fin 0, [sampleRow], [sampleRow],
    some sampleBalance⟩

/-- Characters are unchanged by a second `Char.toUpper`: an upper-cased
character is no longer in the lower-case range. -/
theorem charToUpper_idem (c : Char) : c.toUpper.toUpper = c.toUpper := by
  unfold Char.toUpper
  by_cases h : c.toNat ≥ 97 ∧ c.toNat ≤ 122
  · rw [if_pos h]
    have hv : Nat.isValidChar (c.toNat - 32) := Or.inl (by omega)
    have ht : (Char.ofNat (c.toNat - 32)).toNat = c.toNat - 32 := by
      simp only [Char.ofNat, Char.toNat] at hv ⊢
      rw [dif_pos hv]
      simp [Char.ofNatAux, UInt32.toNat, BitVec.toNat_ofNatLt]
    rw [if_neg (by omega)]
  · rw [if_neg h, if_neg h]

/-- Upper-casing is idempotent, so the double normalization on the path
get_conversion_rate → get_live_exchange_rate is harmless. -/
theorem pyUpper_idem (s : String) : pyUpper (pyUpper s) = pyUpper s := by
  show String.mk ((String.mk (s.data.map Char.toUpper)).data.map Char.toUpper)
    = String.mk (s.data.map Char.toUpper)
  have h : (s.data.map Char.toUpper).map Char.toUpper = s.data.map Char.toUpper := by
    rw [List.map_map]
    exact List.map_congr_left (fun c _ => charToUpper_idem c)
  show String.mk ((s.data.map Char.toUpper).map Char.toUpper) = _
  rw [h]

/-- Case analysis of `get_live_exchange_rate`: the USD identity, the cache
hit, and the cache miss resolving via `resolvedRate` with a cache write and
one fetch attempt. -/
theorem get_live_cases (fetch : Fetch) (code : String) (st : RateState) :
    get_live_exchange_rate fetch code st =
      if pyUpper code = "USD" then (1, st)
      else
        match List.lookup (pyUpper code) st.cache with
        | some r => (r, st)
        | none =>
          (resolvedRate fetch (pyUpper code),
            ⟨(pyUpper code, resolvedRate fetch (pyUpper code)) :: st.cache,
              st.calls + 1⟩) := by
  unfold get_live_exchange_rate resolvedRate
  by_cases h : pyUpper code = "USD"
  · simp [h]
  · simp only [h, if_false]
    cases hl : List.lookup (pyUpper code) st.cache with
    | some r => simp
    | none =>
      cases hf : fetch (pyUpper code) with
      | some p => by_cases hp : 0 < p <;> simp [hp]
      | none => simp

/-- `get_conversion_rate` behaves exactly like `get_live_exchange_rate`
except that it answers the USD case itself (the inner normalization is
idempotent). -/
theorem get_conversion_cases (fetch : Fetch) (code : String) (st : RateState) :
    get_conversion_rate fetch code st =
      if pyUpper code = "USD" then (1, st)
      else
        match List.lookup (pyUpper code) st.cache with
        | some r => (r, st)
        | none =>
          (resolvedRate fetch (pyUpper code),
            ⟨(pyUpper code, resolvedRate fetch (pyUpper code)) :: st.cache,
              st.calls + 1⟩) := by
  unfold get_conversion_rate
  by_cases h : pyUpper code = "USD"
  · simp [h]
  · simp only [h, if_false]
    rw [get_live_cases, pyUpper_idem, if_neg h]

/-- The second component of `convert_to_usd` is the state left by
`get_conversion_rate` (also in the no-conversion case, where both leave the
state untouched). -/
theorem convert_to_usd_snd (fetch : Fetch) (v : Flt) (code : String)
    (st : RateState) :
    (convert_to_usd fetch v code st).2 = (get_conversion_rate fetch code st).2 := by
  unfold convert_to_usd
  by_cases h : needs_currency_conversion code
  · simp [h]
  · have hu : pyUpper code = "USD" := by
      have := h
      unfold needs_currency_conversion at this
      simpa using this
    simp [h, get_conversion_cases, hu]

/-- The second component of `get_currency_info_dict` is the state left by
`get_conversion_rate`. -/
theorem get_currency_info_dict_snd (fetch : Fetch) (code : String)
    (st : RateState) :
    (get_currency_info_dict fetch code st).2
      = (get_conversion_rate fetch code st).2 := by
  unfold get_currency_info_dict
  by_cases h : needs_currency_conversion code <;> simp [h]

/-- One resolution makes at most one fetch attempt. -/
theorem get_conversion_calls_le (fetch : Fetch) (code : String) (st : RateState) :
    (get_conversion_rate fetch code st).2.calls ≤ st.calls + 1 := by
  rw [get_conversion_cases]
  by_cases h : pyUpper code = "USD"
  · simp [h]
  · simp only [h, if_false]
    cases hl : List.lookup (pyUpper code) st.cache <;> simp

/-- Cache evolution of one resolution: unchanged, or a single new entry for
the normalized code, which is never the key USD. -/
theorem get_conversion_cache_shape (fetch : Fetch) (code : String) (st : RateState) :
    (get_conversion_rate fetch code st).2.cache = st.cache ∨
      ((get_conversion_rate fetch code st).2.cache
          = (pyUpper code, resolvedRate fetch (pyUpper code)) :: st.cache ∧
        pyUpper code ≠ "USD") := by
  rw [get_conversion_cases]
  by_cases h : pyUpper code = "USD"
  · simp [h]
  · simp only [h, if_false]
    cases hl : List.lookup (pyUpper code) st.cache with
    | some r => exact Or.inl rfl
    | none => exact Or.inr ⟨rfl, h⟩

/-- Resolving a second time from the state left by a first resolution gives
the same rate and leaves the state unchanged (the second call is a cache
hit, or the USD identity). -/
theorem get_conversion_repeat (fetch : Fetch) (code : String) (st : RateState) :
    get_conversion_rate fetch code ((get_conversion_rate fetch code st).2)
      = ((get_conversion_rate fetch code st).1,
         (get_conversion_rate fetch code st).2) := by
  by_cases h : pyUpper code = "USD"
  · simp [get_conversion_cases, h]
  · cases hl : List.lookup (pyUpper code) st.cache with
    | some r =>
      have h1 : get_conversion_rate fetch code st = (r, st) := by
        rw [get_conversion_cases, if_neg h, hl]
      simp [h1]
    | none =>
      have h1 : get_conversion_rate fetch code st
          = (resolvedRate fetch (pyUpper code),
             ⟨(pyUpper code, resolvedRate fetch (pyUpper code)) :: st.cache,
               st.calls + 1⟩) := by
        rw [get_conversion_cases, if_neg h, hl]
      have h2 : get_conversion_rate fetch code
          (⟨(pyUpper code, resolvedRate fetch (pyUpper code)) :: st.cache,
            st.calls + 1⟩ : RateState)
          = (resolvedRate fetch (pyUpper code),
             ⟨(pyUpper code, resolvedRate fetch (pyUpper code)) :: st.cache,
               st.calls + 1⟩) := by
        rw [get_conversion_cases, if_neg h]
        simp [List.lookup]
      simp [h1, h2]

/-- The descriptor's conversionRate field is the value delivered by
`get_conversion_rate`. -/
theorem get_currency_info_rate (fetch : Fetch) (code : String) (st : RateState) :
    (get_currency_info_dict fetch code st).1.conversionRate
      = (get_conversion_rate fetch code st).1 := by
  unfold get_currency_info_dict
  by_cases h : needs_currency_conversion code <;> simp [h]

/-- A resolution never inserts the key USD into the cache. -/
theorem lookup_usd_preserved (fetch : Fetch) (code : String) (st : RateState)
    (h : List.lookup "USD" st.cache = none) :
    List.lookup "USD" (get_conversion_rate fetch code st).2.cache = none := by
  rcases get_conversion_cache_shape fetch code st with hs | ⟨hs, hne⟩
  · rw [hs]; exact h
  · rw [hs]
    have hb : (("USD" : String) == pyUpper code) = false :=
      beq_eq_false_iff_ne.mpr (Ne.symm hne)
    simp [List.lookup, hb, h]

/-- No operation sequence can put the key USD into the cache. -/
theorem runOps_usd_preserved (ops : List ConverterOp) : ∀ st : RateState,
    List.lookup "USD" st.cache = none →
    List.lookup "USD" (runOps ops st).cache = none := by
  induction ops with
  | nil => intro st h; exact h
  | cons op rest ih =>
    intro st h
    rw [runOps]
    refine ih (applyOp op st) ?_
    cases op with
    | rateOp f c => exact lookup_usd_preserved f c st h
    | convertOp f v c =>
      rw [applyOp, convert_to_usd_snd]
      exact lookup_usd_preserved f c st h
    | infoOp f c =>
      rw [applyOp, get_currency_info_dict_snd]
      exact lookup_usd_preserved f c st h
    | clearOp => simp [applyOp, clear_exchange_rate_cache, List.lookup]

/-- C5: for every non-USD currency code, whenever the live fetch fails
(empty history or exception, i.e. `fetch = none`, or a non-positive price),
the resolution returns the fallback table's rate for the code — defaulting
to 1.0 when the code is absent from the table, by definition of
`fallbackRate` — and that fallback value is stored in the cache. -/
theorem C5_fallback_on_failed_fetch (fetch : Fetch) (code : String)
    (st : RateState)
    (hUSD : pyUpper code ≠ "USD")
    (hMiss : List.lookup (pyUpper code) st.cache = none)
    (hFail : fetch (pyUpper code) = none ∨
      ∃ p, fetch (pyUpper code) = some p ∧ ¬ 0 < p) :
    (get_live_exchange_rate fetch code st).1 = fallbackRate (pyUpper code) ∧
    List.lookup (pyUpper code) (get_live_exchange_rate fetch code st).2.cache
      = some (fallbackRate (pyUpper code)) := by
  have hr : resolvedRate fetch (pyUpper code) = fallbackRate (pyUpper code) := by
    unfold resolvedRate
    rcases hFail with h | ⟨p, hp, hnp⟩
    · rw [h]
    · rw [hp]; simp [hnp]
  rw [get_live_cases, if_neg hUSD, hMiss]
  exact ⟨hr, by simp [List.lookup, hr]⟩

/-- C5 witness: code CNY against the always-failing provider, from the
fresh state: the resolution returns the table rate 1/7 and caches it. -/
theorem C5_witness :
    pyUpper "CNY" ≠ "USD" ∧
    List.lookup (pyUpper "CNY") RateState.init.cache = none ∧
    (get_live_exchange_rate fetchNone "CNY" RateState.init).1 = 1 / 7 ∧
    List.lookup "CNY" (get_live_exchange_rate fetchNone "CNY" RateState.init).2.cache
      = some (1 / 7) := by
  have hup : pyUpper "CNY" = "CNY" := by decide
  have h := C5_fallback_on_failed_fetch fetchNone "CNY" RateState.init
    (by decide) (by decide) (Or.inl rfl)
  rw [hup] at h
  have hf : fallbackRate "CNY" = 1 / 7 := by
    simp [fallbackRate, FALLBACK_CURRENCY_RATES]
  rw [hf] at h
  exact ⟨by decide, by decide, h.1, h.2⟩

/-- C6: with a fixed stubbed live source, a second sequential resolution of
the same code returns the identical value and leaves the state (and hence
the fetch-attempt count) unchanged; the first resolution makes at most one
fetch attempt; and after clearing the cache a resolution of a code that
needs conversion makes exactly one fresh fetch attempt. -/
theorem C6_idempotent_resolution (fetch : Fetch) (code : String) (st : RateState) :
    ((get_conversion_rate fetch code ((get_conversion_rate fetch code st).2)).1
        = (get_conversion_rate fetch code st).1 ∧
      (get_conversion_rate fetch code ((get_conversion_rate fetch code st).2)).2
        = (get_conversion_rate fetch code st).2 ∧
      (get_conversion_rate fetch code st).2.calls ≤ st.calls + 1) ∧
    (needs_currency_conversion code = true →
      (get_conversion_rate fetch code (clear_exchange_rate_cache st)).2.calls
        = st.calls + 1) := by
  constructor
  · refine ⟨?_, ?_, get_conversion_calls_le fetch code st⟩
    · rw [get_conversion_repeat]
    · rw [get_conversion_repeat]
  · intro hneed
    have h : pyUpper code ≠ "USD" := by
      simpa [needs_currency_conversion, bne_iff_ne] using hneed
    rw [get_conversion_cases, if_neg h]
    simp [clear_exchange_rate_cache, List.lookup]

/-- C6 witness: code CNY with the failing stub from the fresh state — the
second call returns the first call's value with no further state change,
and a resolution after a clear bumps the fetch count. -/
theorem C6_witness :
    needs_currency_conversion "CNY" = true ∧
    (get_conversion_rate fetchNone "CNY"
        ((get_conversion_rate fetchNone "CNY" RateState.init).2)).1
      = (get_conversion_rate fetchNone "CNY" RateState.init).1 ∧
    (get_conversion_rate fetchNone "CNY"
        (clear_exchange_rate_cache RateState.init)).2.calls
      = RateState.init.calls + 1 := by
  have h := C6_idempotent_resolution fetchNone "CNY" RateState.init
  exact ⟨by decide, h.1.1, h.2 (by decide)⟩

/-- C7: resolving USD always returns exactly 1.0 with the state untouched
(so no cache write and no fetch attempt, for every state and stub), at both
public entry points; and no sequence of converter operations from the fresh
state ever makes the key USD present in the cache. -/
theorem C7_usd_identity :
    (∀ fetch : Fetch, ∀ st : RateState,
      get_conversion_rate fetch "USD" st = (1, st)) ∧
    (∀ fetch : Fetch, ∀ st : RateState,
      get_live_exchange_rate fetch "USD" st = (1, st)) ∧
    (∀ ops : List ConverterOp,
      List.lookup "USD" (runOps ops RateState.init).cache = none) := by
  have hu : pyUpper "USD" = "USD" := by decide
  refine ⟨?_, ?_, ?_⟩
  · intro fetch st
    rw [get_conversion_cases, hu]
    simp
  · intro fetch st
    rw [get_live_cases, hu]
    simp
  · intro ops
    exact runOps_usd_preserved ops RateState.init (by decide)

/-- C8: needsConversion is true exactly when the upper-cased code differs
from USD (so false for usd and Usd); converting any value — including NaN
and the infinities — with code USD returns it unchanged with the state
untouched; and converting the value 0 yields 0 for every code. -/
theorem C8_conversion_algebra :
    (∀ code, needs_currency_conversion code = true ↔ pyUpper code ≠ "USD") ∧
    needs_currency_conversion "usd" = false ∧
    needs_currency_conversion "Usd" = false ∧
    (∀ fetch : Fetch, ∀ v : Flt, ∀ st : RateState,
      convert_to_usd fetch v "USD" st = (v, st)) ∧
    (∀ fetch : Fetch, ∀ code : String, ∀ st : RateState,
      (convert_to_usd fetch (.fin 0) code st).1 = .fin 0) := by
  refine ⟨?_, by decide, by decide, ?_, ?_⟩
  · intro code
    simp [needs_currency_conversion, bne_iff_ne]
  · intro fetch v st
    have h : needs_currency_conversion "USD" = false := by decide
    simp [convert_to_usd, h]
  · intro fetch code st
    unfold convert_to_usd
    by_cases h : needs_currency_conversion code
    · simp [h, fltMulQ]
    · simp [h]

/-- C8 witness: the case-insensitivity characterization instantiated at the
concrete code CNY, in both directions. -/
theorem C8_witness :
    needs_currency_conversion "CNY" = true ∧ pyUpper "CNY" ≠ "USD" :=
  ⟨(C8_conversion_algebra.1 "CNY").mpr (by decide),
   (C8_conversion_algebra.1 "CNY").mp (by decide)⟩

/-- C1 counterexample: for code CNY with the live fetch forced to fail, the
descriptor does report conversionApplied = true, but its rate-source field
is the fixed label "yfinance (live)" — not "fallback" — even though the
rate came from the fallback table. -/
theorem C1_counterexample :
    (get_currency_info_dict fetchNone "CNY" RateState.init).1.conversionApplied
      = true ∧
    (get_currency_info_dict fetchNone "CNY" RateState.init).1.exchangeRateSource
      = "yfinance (live)" ∧
    (get_currency_info_dict fetchNone "CNY" RateState.init).1.exchangeRateSource
      ≠ "fallback" := by
  refine ⟨?_, ?_, ?_⟩ <;>
    simp +decide [get_currency_info_dict, needs_currency_conversion,
      get_conversion_rate, get_live_exchange_rate, pyUpper, fallbackRate,
      FALLBACK_CURRENCY_RATES, RateState.init, fetchNone]

/-- C1 amended: the descriptor's rate-source label does not distinguish
live from fallback resolutions — it is the fixed string "yfinance (live)"
whenever conversion is applied and "N/A (USD)" otherwise; conversionApplied
mirrors needsConversion; and for code CNY with the live fetch forced to
fail the descriptor reports conversionApplied = true with the fallback
conversion rate 1/7, and converting 1000 CNY yields 1000/7 USD. -/
theorem C1_amended_descriptor (fetch : Fetch) (code : String) (st : RateState) :
    ((get_currency_info_dict fetch code st).1.exchangeRateSource
        = if needs_currency_conversion code then "yfinance (live)"
          else "N/A (USD)") ∧
    ((get_currency_info_dict fetch code st).1.conversionApplied
        = needs_currency_conversion code) ∧
    (get_currency_info_dict fetchNone "CNY" RateState.init).1.conversionApplied
      = true ∧
    (get_currency_info_dict fetchNone "CNY" RateState.init).1.conversionRate
      = 1 / 7 ∧
    (convert_to_usd fetchNone (.fin 1000) "CNY" RateState.init).1
      = .fin (1000 / 7) := by
  refine ⟨?_, ?_, ?_, ?_, ?_⟩
  · unfold get_currency_info_dict
    by_cases h : needs_currency_conversion code <;> simp [h]
  · unfold get_currency_info_dict
    by_cases h : needs_currency_conversion code <;> simp [h]
  · simp +decide [get_currency_info_dict, needs_currency_conversion,
      get_conversion_rate, get_live_exchange_rate, pyUpper, fallbackRate,
      FALLBACK_CURRENCY_RATES, RateState.init, fetchNone]
  · simp +decide [get_currency_info_dict, needs_currency_conversion,
      get_conversion_rate, get_live_exchange_rate, pyUpper, fallbackRate,
      FALLBACK_CURRENCY_RATES, RateState.init, fetchNone]
  · simp +decide [convert_to_usd, needs_currency_conversion, fltMulQ,
      get_conversion_rate, get_live_exchange_rate, pyUpper, fallbackRate,
      FALLBACK_CURRENCY_RATES, RateState.init, fetchNone]
    norm_num

/-- C3 counterexample: from the fresh state, building the descriptor for
CNY is not free of cache writes — the cache differs before and after the
call (the missed code's rate is inserted). -/
theorem C3_counterexample :
    (get_currency_info_dict fetchNone "CNY" RateState.init).2.cache
      ≠ RateState.init.cache := by
  simp +decide [get_currency_info_dict, needs_currency_conversion,
    get_conversion_rate, get_live_exchange_rate, pyUpper, fallbackRate,
    FALLBACK_CURRENCY_RATES, RateState.init, fetchNone]

/-- C3 amended: the descriptor builder can insert the rate of the queried
code into the cache on a cache miss; it preserves the binding of every
other key, leaves the whole state unchanged when the queried code is
already cached, and a repeated call returns the identical descriptor with
no further state change. -/
theorem C3_amended_builder_frame (fetch : Fetch) (code : String) (st : RateState) :
    (∀ k, k ≠ pyUpper code →
      List.lookup k (get_currency_info_dict fetch code st).2.cache
        = List.lookup k st.cache) ∧
    (List.lookup (pyUpper code) st.cache ≠ none →
      (get_currency_info_dict fetch code st).2 = st) ∧
    (get_currency_info_dict fetch code ((get_currency_info_dict fetch code st).2)
      = ((get_currency_info_dict fetch code st).1,
         (get_currency_info_dict fetch code st).2)) := by
  refine ⟨?_, ?_, ?_⟩
  · intro k hk
    rw [get_currency_info_dict_snd]
    rcases get_conversion_cache_shape fetch code st with hs | ⟨hs, _⟩
    · rw [hs]
    · rw [hs]
      have hb : (k == pyUpper code) = false := beq_eq_false_iff_ne.mpr hk
      simp [List.lookup, hb]
  · intro hsome
    rw [get_currency_info_dict_snd, get_conversion_cases]
    by_cases h : pyUpper code = "USD"
    · simp [h]
    · cases hl : List.lookup (pyUpper code) st.cache with
      | some r => simp [h]
      | none => exact absurd hl hsome
  · have hrep := get_conversion_repeat fetch code st
    rw [get_currency_info_dict_snd]
    unfold get_currency_info_dict
    by_cases h : needs_currency_conversion code <;> simp [h, hrep]

/-- C3 witness: querying CNY from a state whose cache already holds CNY
leaves every binding and the whole state unchanged. -/
theorem C3_witness :
    ("EUR" : String) ≠ pyUpper "CNY" ∧
    List.lookup (pyUpper "CNY")
      (RateState.mk [("CNY", 1 / 7)] 0).cache ≠ none ∧
    List.lookup "EUR"
      (get_currency_info_dict fetchNone "CNY" (RateState.mk [("CNY", 1 / 7)] 0)).2.cache
      = List.lookup "EUR" (RateState.mk [("CNY", 1 / 7)] 0).cache ∧
    (get_currency_info_dict fetchNone "CNY" (RateState.mk [("CNY", 1 / 7)] 0)).2
      = RateState.mk [("CNY", 1 / 7)] 0 := by
  have h := C3_amended_builder_frame fetchNone "CNY" (RateState.mk [("CNY", 1 / 7)] 0)
  refine ⟨by decide, ?_, h.1 "EUR" (by decide), h.2.1 ?_⟩ <;>
    · have hu : pyUpper "CNY" = "CNY" := by decide
      rw [hu]
      simp [List.lookup]

/-- C4 counterexample: an instrument-info record whose currency field holds
the truthy non-string value 1 makes detect_financial_currency raise an
AttributeError (Python `.upper()` on an int), so an exception does
propagate for some input. -/
theorem C4_counterexample :
    detect_financial_currency [("financialCurrency", .int 1)]
      = .exn "AttributeError" := by decide

/-- C4 amended: the Rate Converter's operations are total, and the currency
resolver raises only for a truthy non-string field value: it returns USD
when the field is absent, empty, or otherwise falsy, the upper-cased value
when the field holds a non-empty string, and AttributeError exactly when
the field's value is truthy and not a string. -/
theorem C4_amended_detect (info : List (String × PyVal)) :
    detect_financial_currency info =
      match (List.lookup "financialCurrency" info).getD (.str "USD") with
      | .str s => if s = "" then .ok "USD" else .ok (pyUpper s)
      | v => if pyTruthy v then .exn "AttributeError" else .ok "USD" := by
  unfold detect_financial_currency
  cases h : (List.lookup "financialCurrency" info).getD (.str "USD") with
  | str s => by_cases hs : s = "" <;> simp [pyTruthy, hs]
  | int n => by_cases hn : n = 0 <;> simp [pyTruthy, hn]
  | float f => by_cases hf : f = .fin 0 <;> simp [pyTruthy, hf]
  | bool b => cases b <;> simp [pyTruthy]
  | pynone => simp [pyTruthy]

/- Mutual structural lemmas for the NaN/Inf cleaner, one per layer. -/
mutual
theorem objFinite_clean : ∀ o, objFinite (clean_nan_values o) = true
  | .dict es => by simp [clean_nan_values, objFinite, entriesFinite_clean es]
  | .arr xs => by simp [clean_nan_values, objFinite, itemsFinite_clean xs]
  | .float (.fin q) => rfl
  | .float .nan => rfl
  | .float .inf => rfl
  | .float .ninf => rfl
  | .str s => rfl
  | .int n => rfl
  | .bool b => rfl
  | .pynone => rfl
theorem itemsFinite_clean : ∀ xs, itemsFinite (cleanItems xs) = true
  | .nil => rfl
  | .cons x xs => by
    simp [cleanItems, itemsFinite, objFinite_clean x, itemsFinite_clean xs]
theorem entriesFinite_clean : ∀ es, entriesFinite (cleanEntries es) = true
  | .nil => rfl
  | .cons k v es => by
    simp [cleanEntries, entriesFinite, objFinite_clean v, entriesFinite_clean es]
end

mutual
theorem clean_of_finite : ∀ o, objFinite o = true → clean_nan_values o = o
  | .dict es => by
    intro h
    simp only [objFinite] at h
    simp [clean_nan_values, cleanEntries_of_finite es h]
  | .arr xs => by
    intro h
    simp only [objFinite] at h
    simp [clean_nan_values, cleanItems_of_finite xs h]
  | .float (.fin q) => fun _ => rfl
  | .float .nan => fun h => by simp [objFinite] at h
  | .float .inf => fun h => by simp [objFinite] at h
  | .float .ninf => fun h => by simp [objFinite] at h
  | .str s => fun _ => rfl
  | .int n => fun _ => rfl
  | .bool b => fun _ => rfl
  | .pynone => fun _ => rfl
theorem cleanItems_of_finite : ∀ xs, itemsFinite xs = true → cleanItems xs = xs
  | .nil => fun _ => rfl
  | .cons x xs => by
    intro h
    simp only [itemsFinite, Bool.and_eq_true] at h
    simp [cleanItems, clean_of_finite x h.1, cleanItems_of_finite xs h.2]
theorem cleanEntries_of_finite : ∀ es, entriesFinite es = true → cleanEntries es = es
  | .nil => fun _ => rfl
  | .cons k v es => by
    intro h
    simp only [entriesFinite, Bool.and_eq_true] at h
    simp [cleanEntries, clean_of_finite v h.1, cleanEntries_of_finite es h.2]
end

mutual
theorem objShape_clean : ∀ o, objShape (clean_nan_values o) = objShape o
  | .dict es => by simp [clean_nan_values, objShape, entriesShape_clean es]
  | .arr xs => by simp [clean_nan_values, objShape, itemsShape_clean xs]
  | .float (.fin q) => rfl
  | .float .nan => rfl
  | .float .inf => rfl
  | .float .ninf => rfl
  | .str s => rfl
  | .int n => rfl
  | .bool b => rfl
  | .pynone => rfl
theorem itemsShape_clean : ∀ xs, itemsShape (cleanItems xs) = itemsShape xs
  | .nil => rfl
  | .cons x xs => by
    simp [cleanItems, itemsShape, objShape_clean x, itemsShape_clean xs]
theorem entriesShape_clean : ∀ es, entriesShape (cleanEntries es) = entriesShape es
  | .nil => rfl
  | .cons k v es => by
    simp [cleanEntries, entriesShape, objShape_clean v, entriesShape_clean es]
end

/-- C9: the cleaner preserves the shape of every finitely nested tree
(dictionary keys, list lengths and nesting); its output contains no NaN or
infinity anywhere; a tree already free of them is returned unchanged (so
strings, integers, booleans and finite floats are untouched at any depth);
each NaN/Inf leaf becomes the placeholder 0; and the spec's worked example
evaluates as stated. -/
theorem C9_clean_nan_spec :
    (∀ o, objShape (clean_nan_values o) = objShape o) ∧
    (∀ o, objFinite (clean_nan_values o) = true) ∧
    (∀ o, objFinite o = true → clean_nan_values o = o) ∧
    clean_nan_values (.float .nan) = .int 0 ∧
    clean_nan_values (.float .inf) = .int 0 ∧
    clean_nan_values (.float .ninf) = .int 0 ∧
    (∀ q, clean_nan_values (.float (.fin q)) = .float (.fin q)) ∧
    (∀ s, clean_nan_values (.str s) = .str s) ∧
    (∀ n, clean_nan_values (.int n) = .int n) ∧
    (∀ b, clean_nan_values (.bool b) = .bool b) ∧
    clean_nan_values exampleTree = exampleTreeCleaned :=
  ⟨objShape_clean, objFinite_clean, clean_of_finite, rfl, rfl, rfl,
    fun _ => rfl, fun _ => rfl, fun _ => rfl, fun _ => rfl, rfl⟩

/-- C9 witness: the cleaned example tree is NaN/Inf-free, and cleaning it
again (a tree already free of bad floats) returns it unchanged. -/
theorem C9_witness :
    objFinite exampleTreeCleaned = true ∧
    clean_nan_values exampleTreeCleaned = exampleTreeCleaned :=
  ⟨rfl, C9_clean_nan_spec.2.2.1 exampleTreeCleaned rfl⟩

/-- C10: within one call of get_stock_data the rate is resolved at most
once (at most one fetch attempt is added), every financials entry — TTM or
annual — and every quarterly entry is a raw row converted with the single
rate reported in the response's currencyInfo conversionRate field, and the
balance sheet, when present, is converted with that same rate. -/
theorem C10_single_rate (fetch : Fetch) (inp : StockInput) (st : RateState) :
    (get_stock_data fetch inp st).2.calls ≤ st.calls + 1 ∧
    (∀ row ∈ (get_stock_data fetch inp st).1.financials, ∃ raw eps,
      row = convertRow
        (get_stock_data fetch inp st).1.currencyInfo.conversionRate eps raw) ∧
    ((get_stock_data fetch inp st).1.quarterlyFinancials
      = inp.quarterlyRows.map
          (convertRow (get_stock_data fetch inp st).1.currencyInfo.conversionRate
            (.fin 0))) ∧
    (∀ b, inp.balance = some b →
      (get_stock_data fetch inp st).1.balanceSheet
        = convertBalance
            (get_stock_data fetch inp st).1.currencyInfo.conversionRate b) := by
  refine ⟨?_, ?_, ?_, ?_⟩
  · show (get_currency_info_dict fetch inp.financialCurrency st).2.calls ≤ st.calls + 1
    rw [get_currency_info_dict_snd]
    exact get_conversion_calls_le fetch inp.financialCurrency st
  · intro row hrow
    unfold get_stock_data at hrow ⊢
    simp only [List.mem_append] at hrow
    rcases hrow with hrow | hrow
    · by_cases hc : fltPos inp.ttmRevenue || fltPos inp.ttmOperatingIncome
      · simp only [hc, if_true, List.mem_singleton] at hrow
        exact ⟨_, inp.trailingEps, hrow⟩
      · simp [hc] at hrow
    · rcases List.mem_map.mp hrow with ⟨raw, _, hmap⟩
      exact ⟨raw, .fin 0, hmap.symm⟩
  · rfl
  · intro b hb
    unfold get_stock_data
    simp [hb]

/-- C10 witness: the sample CNY input with the failing stub — the single
annual entry of the response is the sample row converted at rate 1/7,
which is the response's reported conversion rate, and the balance sheet is
converted at that same reported rate. -/
theorem C10_witness :
    convertRow (1 / 7) (.fin 0) sampleRow
        ∈ (get_stock_data fetchNone sampleInput RateState.init).1.financials ∧
    (∃ raw eps, convertRow (1 / 7) (.fin 0) sampleRow
        = convertRow
            (get_stock_data fetchNone sampleInput RateState.init).1.currencyInfo.conversionRate
            eps raw) ∧
    (get_stock_data fetchNone sampleInput RateState.init).1.balanceSheet
      = convertBalance
          (get_stock_data fetchNone sampleInput RateState.init).1.currencyInfo.conversionRate
          sampleBalance := by
  have hmem : convertRow (1 / 7) (.fin 0) sampleRow
      ∈ (get_stock_data fetchNone sampleInput RateState.init).1.financials := by
    simp +decide [get_stock_data, get_currency_info_dict, needs_currency_conversion,
      get_conversion_rate, get_live_exchange_rate, pyUpper, fallbackRate,
      FALLBACK_CURRENCY_RATES, RateState.init, fetchNone, sampleInput, fltPos]
  have h := C10_single_rate fetchNone sampleInput RateState.init
  exact ⟨hmem, h.2.1 _ hmem, h.2.2.2 sampleBalance rfl⟩

end GuruLens
